import Mathlib

/-!
# Verification of the `library_crates_structured_errors` clippy lint

Shallow embedding of `clippy_lints/src/library_crates_structured_errors.rs`.

The lint inspects a compilation unit's declared crate types, and, for
library crates, flags functions whose declared `Result` error type is one
of a small catalogue of "overly generic" error shapes.

The embedding keeps the source's names where Lean allows it.  Type handles
(`rustc_middle::ty::Ty`) are modelled by an inductive `Ty` carrying exactly
the structure the lint inspects: nominal (ADT) types with a definition id
and generic type arguments, trait-object (`dyn`) types with their list of
existential predicates, and a catch-all `other` for every remaining kind of
type, all of which the lint treats identically (every branch of the matcher
falls through to `false` on them).
-/

namespace LibraryCratesStructuredErrors

/-- `rustc_middle::ty::ExistentialPredicate`: one predicate of a trait
object.  Only the `Trait` arm carries data the lint reads (the trait's
definition id); `Projection` and `AutoTrait` are never matched. -/
inductive ExistentialPredicate where
  | traitPred (defId : Nat)
  | projection (defId : Nat)
  | autoTrait (defId : Nat)
deriving Repr

/-- The structure of a type handle, as far as the lint inspects it.
`adt did args` is a nominal type (struct/enum, including `String` and
`Box`, which are ADTs in the host compiler) with its definition id and
generic type arguments; `dynamic ps` is a trait-object type with its
existential predicates; `other` collapses every remaining type kind
(primitives, references, tuples, ...), which the matcher uniformly
rejects. -/
inductive Ty where
  | adt (did : Nat) (args : List Ty)
  | dynamic (predicates : List ExistentialPredicate)
  | other
deriving Repr

/-- The two lang items the lint queries. -/
inductive LangItem where
  | String
  | OwnedBox
deriving Repr, DecidableEq

/-- The declared output artifact kinds of a compilation unit
(`rustc_session::config::CrateType`). -/
inductive CrateType where
  | executable
  | dylib
  | rlib
  | staticlib
  | cdylib
  | procMacro
deriving Repr, DecidableEq

/-- The kind of a visited function-like declaration
(`rustc_hir::intravisit::FnKind`): a free item function, a method, or a
closure.  The payloads of the source's variants (name, header, ...) are
never read by the lint, so they are omitted. -/
inductive FnKind where
  | itemFn
  | method
  | closure
deriving Repr, DecidableEq

/-- An opaque function declaration token (`rustc_hir::FnDecl`).  The lint
only ever hands it to the external signature extractor. -/
structure FnDecl where
  tag : Nat
deriving Repr, DecidableEq

/-- A HIR type node as returned by the signature extractor; the lint reads
only its source span (modelled as a number). -/
structure HirTy where
  span : Nat
deriving Repr, DecidableEq

/-- The read-only analysis context (`LateContext` together with the
`clippy_utils` helpers it is passed to).  `stringDid` and `boxDid` are the
definition ids registered for the `String` and `OwnedBox` lang items,
`errorTraitDid` the definition id registered as the `Error` diagnostic
item, and `defPath` the fully-qualified path of each definition id.
`result_err_ty` is the external signature extractor (see below). -/
structure Ctx where
  stringDid : Nat
  boxDid : Nat
  errorTraitDid : Nat
  defPath : Nat → List String
  crate_types : List CrateType
  /-- Modelled from the spec: `clippy_utils::ty::result_err_ty` is not part
  of the analysed sources; the spec treats it as the external "Signature
  Extractor" collaborator.  Given a function declaration, its defining id
  and its span, it returns the HIR node of the declared failure type
  together with the failure type handle when the return type is a
  two-variant `Result` shape, and `none` otherwise. -/
  result_err_ty : FnDecl → Nat → Nat → Option (HirTy × Ty)

/-- The definition id registered for a lang item. -/
def Ctx.langItemDid (cx : Ctx) : LangItem → Nat
  | LangItem.String => cx.stringDid
  | LangItem.OwnedBox => cx.boxDid

/-- Modelled from the spec: `clippy_utils::ty::is_type_lang_item` is not
part of the analysed sources.  It answers whether the type is the nominal
type registered for the given lang item: the type must be an ADT whose
definition id is the lang item's. -/
def is_type_lang_item (cx : Ctx) (ty : Ty) (item : LangItem) : Bool :=
  match ty with
  | Ty.adt did _ => did == cx.langItemDid item
  | _ => false

/-- `rustc_middle::ty::Ty::boxed_ty`: the pointee of a `Box` type, i.e.
the first generic argument of the ADT.  The lint only calls it under an
`OwnedBox` lang-item guard, where the argument list is never empty, so the
fallback arm is unreachable in every use below. -/
def Ty.boxed_ty : Ty → Ty
  | Ty.adt _ (a :: _) => a
  | _ => Ty.other

/-- Modelled from the spec: `TyCtxt::is_diagnostic_item(sym::Error, did)`
is a host query, an identity check of the given definition id against the
single definition registered as the standard `Error` trait. -/
def is_diagnostic_item_Error (cx : Ctx) (did : Nat) : Bool :=
  did == cx.errorTraitDid

/-- Modelled from the spec: `clippy_utils::match_def_path` is not part of
the analysed sources.  It answers whether the fully-qualified path of the
definition id is exactly the given list of segments. -/
def match_def_path (cx : Ctx) (did : Nat) (path : List String) : Bool :=
  cx.defPath did == path

/-- The predicate-set scan of the matcher's second shape check: does the
list of existential predicates of a trait object contain a trait predicate
whose trait is the standard `Error` trait?  (Inlined in the source; named
here so the shape can be reused.) -/
def has_error_trait_predicate (cx : Ctx) (inner : Ty) : Bool :=
  match inner with
  | Ty.dynamic predicates =>
      predicates.any fun predicate =>
        match predicate with
        | ExistentialPredicate.traitPred did => is_diagnostic_item_Error cx did
        | _ => false
  | _ => false

/-- `is_overly_generic_error_type`: the Type Shape Matcher.  Mirrors the
source's control flow: first the `String` lang-item check, then the
`OwnedBox` lang-item check with the trait-object `Error`-predicate scan of
the pointee, then the ADT path match against `anyhow::Error` and
`eyre::Report`; every other type falls through to `false`. -/
def is_overly_generic_error_type (cx : Ctx) (ty : Ty) : Bool :=
  if is_type_lang_item cx ty LangItem.String then
    true
  else if is_type_lang_item cx ty LangItem.OwnedBox &&
      has_error_trait_predicate cx ty.boxed_ty then
    true
  else if
    (match ty with
     | Ty.adt did _ =>
         match_def_path cx did ["anyhow", "Error"] ||
           match_def_path cx did ["eyre", "Report"]
     | _ => false) then
    true
  else
    false

/-- `is_library_crate`: the Crate Kind Classifier.  True when any declared
crate type is `Cdylib`, `Dylib`, `Rlib`, `ProcMacro` or `Staticlib`. -/
def is_library_crate (cx : Ctx) : Bool :=
  cx.crate_types.any fun t =>
    match t with
    | CrateType.cdylib => true
    | CrateType.dylib => true
    | CrateType.rlib => true
    | CrateType.procMacro => true
    | CrateType.staticlib => true
    | _ => false

/-- The lint pass state (`struct LibraryCratesStructuredErrors`): the
cached classification, `none` until `check_crate` runs. -/
structure LintPass where
  is_library_crate : Option Bool
deriving Repr, DecidableEq

/-- A diagnostic as handed to `span_lint_and_note`: the span it is
anchored at, the primary message and the suggestion note. -/
structure Diagnostic where
  span : Nat
  msg : String
  note : String
deriving Repr, DecidableEq

/-- `check_crate`: classifies the unit and caches the boolean, replacing
whatever state was there before. -/
def check_crate (cx : Ctx) (s : LintPass) : LintPass :=
  if is_library_crate cx then
    { s with is_library_crate := some true }
  else
    { s with is_library_crate := some false }

/-- `check_fn`: the per-function visit.  Returns `none` when the source
panics (the `.expect` on an unclassified state) and `some ds` with the
list of diagnostics emitted otherwise.  The unused `&Body` parameter of
the source is omitted. -/
def check_fn (cx : Ctx) (s : LintPass) (fn_kind : FnKind) (fn_ : FnDecl)
    (span : Nat) (local_def_id : Nat) : Option (List Diagnostic) :=
  match s.is_library_crate with
  | none => none
  | some isLib =>
    if !isLib then
      some []
    else
      match fn_kind with
      | FnKind.method | FnKind.itemFn =>
          match cx.result_err_ty fn_ local_def_id span with
          | some (hir_ty, err_ty) =>
              if is_overly_generic_error_type cx err_ty then
                some [{ span := hir_ty.span,
                        msg := "this is an unstructured error type",
                        note := "try using an error enum" }]
              else
                some []
          | none => some []
      | FnKind.closure => some []

/-- One function visit as handed to `check_fn` by the host traversal. -/
structure FnVisit where
  fn_kind : FnKind
  fn_ : FnDecl
  span : Nat
  local_def_id : Nat
deriving Repr, DecidableEq

/-- Visits a list of functions in order with a fixed state, concatenating
the emitted diagnostics; `none` as soon as any visit panics. -/
def visit_fns (cx : Ctx) (s : LintPass) : List FnVisit → Option (List Diagnostic)
  | [] => some []
  | v :: vs =>
      match check_fn cx s v.fn_kind v.fn_ v.span v.local_def_id with
      | none => none
      | some ds =>
          match visit_fns cx s vs with
          | none => none
          | some rest => some (ds ++ rest)

/-- One full run of the rule over a unit: `check_crate` once, then every
function visit against the cached state.  Returns the final state and the
diagnostics of the run. -/
def run_pass (cx : Ctx) (s : LintPass) (fns : List FnVisit) :
    LintPass × Option (List Diagnostic) :=
  let s1 := check_crate cx s
  (s1, visit_fns cx s1 fns)

/-! ## Spec-side definitions

The spec catalogues four generic-error shapes.  Each one is stated here as
an independent predicate following the spec's wording, so that the matcher
from the source can be compared against their disjunction. -/

/-- Spec shape 1: the type IS the built-in owned, growable text string
type (the `String` lang item). -/
def shape_builtin_string (cx : Ctx) (ty : Ty) : Bool :=
  is_type_lang_item cx ty LangItem.String

/-- Spec shape 2: the type IS an owned heap box whose pointee is a trait
object whose predicate set includes the standard `Error` trait. -/
def shape_boxed_dyn_error (cx : Ctx) (ty : Ty) : Bool :=
  is_type_lang_item cx ty LangItem.OwnedBox &&
    has_error_trait_predicate cx ty.boxed_ty

/-- Spec shape 3: a nominal type whose fully-qualified path is exactly
`anyhow::Error`. -/
def shape_anyhow_error (cx : Ctx) (ty : Ty) : Bool :=
  match ty with
  | Ty.adt did _ => match_def_path cx did ["anyhow", "Error"]
  | _ => false

/-- Spec shape 4: a nominal type whose fully-qualified path is exactly
`eyre::Report`. -/
def shape_eyre_report (cx : Ctx) (ty : Ty) : Bool :=
  match ty with
  | Ty.adt did _ => match_def_path cx did ["eyre", "Report"]
  | _ => false

/-- The catalogue: the four shapes, in the spec's priority order. -/
def catalogued_shapes : List (Ctx → Ty → Bool) :=
  [shape_builtin_string, shape_boxed_dyn_error, shape_anyhow_error, shape_eyre_report]

/-- Spec-side matcher: the type matches ANY of the four catalogued
shapes. -/
def matches_catalogued_shape (cx : Ctx) (ty : Ty) : Bool :=
  shape_builtin_string cx ty || shape_boxed_dyn_error cx ty ||
    shape_anyhow_error cx ty || shape_eyre_report cx ty

/-- Well-formedness of a context, recording facts that hold of the host
compiler but are not forced by the embedding: the `String` and `OwnedBox`
lang items are distinct definitions, and both live in the standard
library, so neither has the fully-qualified path `anyhow::Error` or
`eyre::Report`. -/
structure WellFormedCtx (cx : Ctx) : Prop where
  string_ne_box : cx.stringDid ≠ cx.boxDid
  string_not_anyhow : cx.defPath cx.stringDid ≠ ["anyhow", "Error"]
  string_not_eyre : cx.defPath cx.stringDid ≠ ["eyre", "Report"]
  box_not_anyhow : cx.defPath cx.boxDid ≠ ["anyhow", "Error"]
  box_not_eyre : cx.defPath cx.boxDid ≠ ["eyre", "Report"]

/-! ## Concrete fixtures

A concrete context mirroring the host compiler's registrations, used by
the witness theorems.  Definition ids: 0 = `alloc::string::String`
(the `String` lang item), 1 = `alloc::boxed::Box` (the `OwnedBox` lang
item), 2 = `std::error::Error` (the `Error` diagnostic item),
10 = `anyhow::Error`, 11 = `eyre::Report`, 20 = a user-defined error
enum. -/

/-- Fully-qualified paths of the fixture definition ids. -/
def fixturePath (did : Nat) : List String :=
  if did = 0 then ["alloc", "string", "String"]
  else if did = 1 then ["alloc", "boxed", "Box"]
  else if did = 2 then ["std", "error", "Error"]
  else if did = 10 then ["anyhow", "Error"]
  else if did = 11 then ["eyre", "Report"]
  else ["user", "MyError"]

/-- A fixture signature extractor: function 0 is a two-variant `Result`
returning `anyhow::Error` with the failure annotation at span 42; every
other function has no `Result`-shaped return type. -/
def fixtureExtractor (fn_ : FnDecl) (_localDefId : Nat) (_span : Nat) :
    Option (HirTy × Ty) :=
  if fn_.tag = 0 then some ({ span := 42 }, Ty.adt 10 []) else none

/-- A fixture context for a library unit (an `rlib` artifact). -/
def libCtx : Ctx :=
  { stringDid := 0, boxDid := 1, errorTraitDid := 2,
    defPath := fixturePath,
    crate_types := [CrateType.rlib],
    result_err_ty := fixtureExtractor }

/-- A fixture context for a plain executable unit. -/
def binCtx : Ctx :=
  { stringDid := 0, boxDid := 1, errorTraitDid := 2,
    defPath := fixturePath,
    crate_types := [CrateType.executable],
    result_err_ty := fixtureExtractor }

/-- Fixture type: the built-in string type. -/
def tyString : Ty := Ty.adt 0 []

/-- Fixture type: `Box<dyn std::error::Error>`. -/
def tyBoxDynError : Ty :=
  Ty.adt 1 [Ty.dynamic [ExistentialPredicate.traitPred 2]]

/-- Fixture type: `Box<String>` (a box whose pointee is not a trait
object). -/
def tyBoxString : Ty := Ty.adt 1 [tyString]

/-- Fixture type: `anyhow::Error`. -/
def tyAnyhow : Ty := Ty.adt 10 []

/-- Fixture type: a user-defined error enum. -/
def tyUserError : Ty := Ty.adt 20 []

/-! ## Helper lemmas -/

/-- The matcher computes exactly the disjunction of the four catalogued
shape predicates. -/
theorem is_overly_generic_eq_catalogue (cx : Ctx) (ty : Ty) :
    is_overly_generic_error_type cx ty = matches_catalogued_shape cx ty := by
  unfold is_overly_generic_error_type matches_catalogued_shape shape_builtin_string
  unfold shape_boxed_dyn_error shape_anyhow_error shape_eyre_report
  cases ty with
  | dynamic ps => simp [is_type_lang_item]
  | other => simp [is_type_lang_item]
  | adt did args =>
      by_cases h1 : is_type_lang_item cx (Ty.adt did args) LangItem.String = true
      · simp [h1]
      · by_cases h2 : (is_type_lang_item cx (Ty.adt did args) LangItem.OwnedBox &&
            has_error_trait_predicate cx (Ty.adt did args).boxed_ty) = true
        · simp [h1, h2]
        · simp only [Bool.not_eq_true] at h1 h2
          simp [h1, h2]

/-- `List.any` is invariant under permutation of the list. -/
theorem perm_any_eq {α : Type} {l1 l2 : List α} (h : l1.Perm l2) (p : α → Bool) :
    l1.any p = l2.any p := by
  cases h1 : l1.any p <;> cases h2 : l2.any p <;> try rfl
  · rw [List.any_eq_true] at h2
    obtain ⟨x, hx, hpx⟩ := h2
    have hx1 : x ∈ l1 := h.mem_iff.mpr hx
    have hc : l1.any p = true := List.any_eq_true.mpr ⟨x, hx1, hpx⟩
    rw [h1] at hc
    cases hc
  · rw [List.any_eq_true] at h1
    obtain ⟨x, hx, hpx⟩ := h1
    have hx2 : x ∈ l2 := h.mem_iff.mp hx
    have hc : l2.any p = true := List.any_eq_true.mpr ⟨x, hx2, hpx⟩
    rw [h2] at hc
    cases hc

/-- With the classification cached as `false`, every visit sequence emits
nothing. -/
theorem visit_fns_not_library (cx : Ctx) (fns : List FnVisit) :
    visit_fns cx { is_library_crate := some false } fns = some [] := by
  induction fns with
  | nil => rfl
  | cons v vs ih => simp [visit_fns, ih, check_fn]

/-- `check_crate` overwrites the state with the classification of the
context alone, so running it twice equals running it once. -/
theorem check_crate_idem (cx : Ctx) (s : LintPass) :
    check_crate cx (check_crate cx s) = check_crate cx s := by
  unfold check_crate
  split <;> rfl

/-! ## Claims -/

/-- C1: for every type handle, `is_overly_generic_error_type` returns
`true` if and only if the type is one of the four catalogued shapes — the
built-in string, an owned box of a trait object carrying the standard
`Error` trait, or a nominal type whose path is exactly `anyhow::Error` or
`eyre::Report` — and `false` for every other type. -/
theorem c1_matcher_iff_catalogued_shape (cx : Ctx) (ty : Ty) :
    is_overly_generic_error_type cx ty = true ↔
      (shape_builtin_string cx ty = true ∨ shape_boxed_dyn_error cx ty = true ∨
        shape_anyhow_error cx ty = true ∨ shape_eyre_report cx ty = true) := by
  rw [is_overly_generic_eq_catalogue]
  simp [matches_catalogued_shape, Bool.or_eq_true, or_assoc]

/-- C2: the crate-kind classifier returns `true` iff the declared
crate-type set contains at least one of {cdylib, dylib, rlib, proc-macro,
staticlib}; in particular an empty set, or a set with only executables,
classifies as `false`. -/
theorem c2_is_library_crate_spec (cx : Ctx) :
    (is_library_crate cx = true ↔
      ∃ t ∈ cx.crate_types,
        t ∈ [CrateType.cdylib, CrateType.dylib, CrateType.rlib,
              CrateType.procMacro, CrateType.staticlib]) ∧
    (cx.crate_types = [] → is_library_crate cx = false) ∧
    ((∀ t ∈ cx.crate_types, t = CrateType.executable) →
      is_library_crate cx = false) := by
  refine ⟨?_, ?_, ?_⟩
  · unfold is_library_crate
    rw [List.any_eq_true]
    constructor
    · rintro ⟨t, ht, hm⟩
      refine ⟨t, ht, ?_⟩
      cases t <;> simp_all
    · rintro ⟨t, ht, hm⟩
      refine ⟨t, ht, ?_⟩
      cases t <;> simp_all
  · intro h
    unfold is_library_crate
    rw [h]
    rfl
  · intro h
    rw [Bool.eq_false_iff]
    unfold is_library_crate
    rw [Ne, List.any_eq_true]
    rintro ⟨t, ht, hm⟩
    have he := h t ht
    subst he
    simp at hm

/-- C2 witness: a unit declaring only an executable classifies as not a
library. -/
theorem c2_is_library_crate_spec_witness : is_library_crate binCtx = false :=
  (c2_is_library_crate_spec binCtx).2.2 (by
    intro t ht
    simp [binCtx] at ht
    exact ht)

/-- C3: for a unit classified as not-a-library, the whole run emits zero
diagnostics, and every per-function visit with the `false` classification
returns immediately with no diagnostic for every context (in particular
for every signature extractor, which is therefore never consulted), every
function kind and every function. -/
theorem c3_not_library_no_diagnostics (cx : Ctx)
    (h : is_library_crate cx = false) :
    (∀ s fns, (run_pass cx s fns).2 = some []) ∧
    (∀ cx2 : Ctx, ∀ k f sp id,
      check_fn cx2 { is_library_crate := some false } k f sp id = some []) := by
  constructor
  · intro s fns
    have hc : check_crate cx s = { is_library_crate := some false } := by
      unfold check_crate
      rw [h]
      rfl
    show visit_fns cx (check_crate cx s) fns = some []
    rw [hc]
    exact visit_fns_not_library cx fns
  · intro cx2 k f sp id
    rfl

/-- C3 witness: an executable-only unit with one item function whose
error type would match the catalogue still produces no diagnostics. -/
theorem c3_not_library_no_diagnostics_witness :
    (run_pass binCtx { is_library_crate := none }
      [{ fn_kind := FnKind.itemFn, fn_ := { tag := 0 }, span := 7,
         local_def_id := 3 }]).2 = some [] :=
  (c3_not_library_no_diagnostics binCtx (by decide)).1 _ _

/-- C4: for a function of a library unit whose extracted failure type
matches a catalogued shape, `check_fn` emits exactly one diagnostic,
anchored at the span of the failure-type annotation, with the message that
the type is unstructured and the note suggesting an error enum. -/
theorem c4_library_generic_error_one_diagnostic (cx : Ctx) (k : FnKind)
    (f : FnDecl) (sp id : Nat) (hirTy : HirTy) (errTy : Ty)
    (hk : k = FnKind.itemFn ∨ k = FnKind.method)
    (hx : cx.result_err_ty f id sp = some (hirTy, errTy))
    (hm : is_overly_generic_error_type cx errTy = true) :
    check_fn cx { is_library_crate := some true } k f sp id =
      some [{ span := hirTy.span, msg := "this is an unstructured error type",
              note := "try using an error enum" }] := by
  rcases hk with rfl | rfl <;> simp [check_fn, hx, hm]

/-- C4 witness: in the rlib fixture, the function returning
`Result<_, anyhow::Error>` with the failure annotation at span 42 yields
exactly one diagnostic anchored at span 42. -/
theorem c4_library_generic_error_one_diagnostic_witness :
    check_fn libCtx { is_library_crate := some true } FnKind.itemFn
        { tag := 0 } 7 3 =
      some [{ span := 42, msg := "this is an unstructured error type",
              note := "try using an error enum" }] :=
  c4_library_generic_error_one_diagnostic libCtx FnKind.itemFn { tag := 0 } 7 3
    { span := 42 } (Ty.adt 10 []) (Or.inl rfl) rfl (by decide)

/-- C5: a per-function visit with the classification still unset hits the
`expect` and panics (modelled as `none`); the unset state is never treated
as `false`. -/
theorem c5_check_fn_unclassified_panics (cx : Ctx) (k : FnKind) (f : FnDecl)
    (sp id : Nat) :
    check_fn cx { is_library_crate := none } k f sp id = none := rfl

/-- C6: when the signature extractor yields nothing for a function, the
visit emits no diagnostic and raises no error, for either classification
and every function kind. -/
theorem c6_no_result_shape_silent (cx : Ctx) (b : Bool) (k : FnKind)
    (f : FnDecl) (sp id : Nat)
    (hx : cx.result_err_ty f id sp = none) :
    check_fn cx { is_library_crate := some b } k f sp id = some [] := by
  cases b <;> cases k <;> simp [check_fn, hx]

/-- C6 witness: in the rlib fixture, the function with no `Result`-shaped
return type produces no diagnostic and no panic. -/
theorem c6_no_result_shape_silent_witness :
    check_fn libCtx { is_library_crate := some true } FnKind.itemFn
      { tag := 1 } 7 3 = some [] :=
  c6_no_result_shape_silent libCtx true FnKind.itemFn { tag := 1 } 7 3 rfl

/-- C7: a visited declaration that is neither a free item function nor a
method (i.e. a closure) is skipped: no extraction, no matching, no
diagnostic, in every context and under either classification. -/
theorem c7_non_item_fn_skipped (cx : Ctx) (b : Bool) (k : FnKind)
    (f : FnDecl) (sp id : Nat)
    (h1 : k ≠ FnKind.itemFn) (h2 : k ≠ FnKind.method) :
    check_fn cx { is_library_crate := some b } k f sp id = some [] := by
  cases k
  · exact absurd rfl h1
  · exact absurd rfl h2
  · cases b <;> rfl

/-- C7 witness: a closure whose extractor result would match the
catalogue is still skipped in the rlib fixture. -/
theorem c7_non_item_fn_skipped_witness :
    check_fn libCtx { is_library_crate := some true } FnKind.closure
      { tag := 0 } 7 3 = some [] :=
  c7_non_item_fn_skipped libCtx true FnKind.closure { tag := 0 } 7 3
    (by decide) (by decide)

/-- C8: running the rule twice over the same unmodified unit — the second
run starting from the state the first one left — produces the identical
state and the identical list of diagnostics. -/
theorem c8_run_pass_idempotent (cx : Ctx) (s : LintPass) (fns : List FnVisit) :
    run_pass cx (run_pass cx s fns).1 fns = run_pass cx s fns := by
  show run_pass cx (check_crate cx s) fns = run_pass cx s fns
  unfold run_pass
  rw [check_crate_idem]

/-- C9: over a well-formed context the four catalogued shapes are pairwise
disjoint, and the matcher's answer equals the disjunction of the shapes
taken in any order (any permutation of the catalogue). -/
theorem c9_shapes_disjoint_order_independent (cx : Ctx)
    (hwf : WellFormedCtx cx) (ty : Ty) :
    (¬(shape_builtin_string cx ty = true ∧ shape_boxed_dyn_error cx ty = true) ∧
      ¬(shape_builtin_string cx ty = true ∧ shape_anyhow_error cx ty = true) ∧
      ¬(shape_builtin_string cx ty = true ∧ shape_eyre_report cx ty = true) ∧
      ¬(shape_boxed_dyn_error cx ty = true ∧ shape_anyhow_error cx ty = true) ∧
      ¬(shape_boxed_dyn_error cx ty = true ∧ shape_eyre_report cx ty = true) ∧
      ¬(shape_anyhow_error cx ty = true ∧ shape_eyre_report cx ty = true)) ∧
    (∀ l : List (Ctx → Ty → Bool), l.Perm catalogued_shapes →
      (l.any fun s => s cx ty) = is_overly_generic_error_type cx ty) := by
  constructor
  · cases ty with
    | dynamic ps =>
        simp [shape_builtin_string, shape_boxed_dyn_error, shape_anyhow_error,
          shape_eyre_report, is_type_lang_item]
    | other =>
        simp [shape_builtin_string, shape_boxed_dyn_error, shape_anyhow_error,
          shape_eyre_report, is_type_lang_item]
    | adt did args =>
        simp only [shape_builtin_string, shape_boxed_dyn_error,
          shape_anyhow_error, shape_eyre_report, is_type_lang_item,
          match_def_path, Ctx.langItemDid, Bool.and_eq_true, beq_iff_eq]
        refine ⟨?_, ?_, ?_, ?_, ?_, ?_⟩
        · rintro ⟨h1, h2, -⟩
          exact hwf.string_ne_box (h1.symm.trans h2)
        · rintro ⟨h1, h2⟩
          exact hwf.string_not_anyhow (by rw [← h1]; exact h2)
        · rintro ⟨h1, h2⟩
          exact hwf.string_not_eyre (by rw [← h1]; exact h2)
        · rintro ⟨⟨h1, -⟩, h2⟩
          exact hwf.box_not_anyhow (by rw [← h1]; exact h2)
        · rintro ⟨⟨h1, -⟩, h2⟩
          exact hwf.box_not_eyre (by rw [← h1]; exact h2)
        · rintro ⟨h1, h2⟩
          rw [h1] at h2
          simp at h2
  · intro l hp
    rw [perm_any_eq hp, is_overly_generic_eq_catalogue]
    simp [catalogued_shapes, matches_catalogued_shape, Bool.or_assoc]

/-- C9 witness: in the fixture context, `anyhow::Error` matches the
anyhow shape but not the box shape, and evaluating the catalogue in
reverse order agrees with the matcher. -/
theorem c9_shapes_disjoint_order_independent_witness :
    ¬(shape_builtin_string libCtx tyAnyhow = true ∧
        shape_boxed_dyn_error libCtx tyAnyhow = true) ∧
    (catalogued_shapes.reverse.any fun s => s libCtx tyAnyhow) =
      is_overly_generic_error_type libCtx tyAnyhow :=
  have hwf : WellFormedCtx libCtx :=
    ⟨by decide, by decide, by decide, by decide, by decide⟩
  ⟨(c9_shapes_disjoint_order_independent libCtx hwf tyAnyhow).1.1,
    (c9_shapes_disjoint_order_independent libCtx hwf tyAnyhow).2
      catalogued_shapes.reverse (List.reverse_perm catalogued_shapes)⟩

/-- C10: over a well-formed context, an owned box whose pointee is not a
trait object carrying the `Error` trait among its predicates is never
flagged: the matcher does not recurse into the pointee with the other
shape checks. -/
theorem c10_box_without_dyn_error_not_flagged (cx : Ctx)
    (hwf : WellFormedCtx cx) (args : List Ty)
    (hinner : has_error_trait_predicate cx (Ty.adt cx.boxDid args).boxed_ty
      = false) :
    is_overly_generic_error_type cx (Ty.adt cx.boxDid args) = false := by
  unfold is_overly_generic_error_type
  simp only [is_type_lang_item, Ctx.langItemDid, match_def_path, hinner,
    Bool.and_false]
  have hsb : (cx.boxDid == cx.stringDid) = false :=
    beq_eq_false_iff_ne.mpr (Ne.symm hwf.string_ne_box)
  have ha : (cx.defPath cx.boxDid == ["anyhow", "Error"]) = false :=
    beq_eq_false_iff_ne.mpr hwf.box_not_anyhow
  have he : (cx.defPath cx.boxDid == ["eyre", "Report"]) = false :=
    beq_eq_false_iff_ne.mpr hwf.box_not_eyre
  simp [hsb, ha, he]

/-- C10 witness: `Box<String>` is not flagged in the fixture context,
even though its pointee alone would match the string shape. -/
theorem c10_box_without_dyn_error_not_flagged_witness :
    is_overly_generic_error_type libCtx (Ty.adt libCtx.boxDid [tyString])
      = false :=
  have hwf : WellFormedCtx libCtx :=
    ⟨by decide, by decide, by decide, by decide, by decide⟩
  c10_box_without_dyn_error_not_flagged libCtx hwf [tyString] (by decide)

end LibraryCratesStructuredErrors
